import Mathlib

/-!
Verification of the TestAPI Flask service (src/app.py) against its
natural-language specification.

The embedding models JSON values, Python truthiness, CPython uuid.UUID
string parsing, and each route handler of app.py as a pure Lean function.
External effects are made explicit parameters:

* `connOk`        : whether `get_db_connection` returns a connection
                    (`psycopg2.connect` succeeding) or `None`;
* `ef`            : a per-request oracle giving, for the i-th
                    `cursor.execute` call, `none` (success) or
                    `some msg` (the call raises an exception whose
                    string form is `msg`);
* `cf`            : same for `conn.commit` in `create_company`;
* `ts`            : the string `datetime.now(UTC).isoformat()` of the
                    request (the code appends a literal "Z");
* `e1`, `e2`      : the two `int(datetime.now().timestamp())` reads made
                    on lines 213 and 214 of app.py;
* `g`             : the random 128-bit integer underlying `uuid.uuid4()`;
* `body`          : the value returned by `request.get_json()`, where
                    `none` models a missing or non-JSON body (the call
                    returning `None`) and `some j` a parsed JSON value.

Integral JSON numbers are modelled by `Int` (every number appearing in
the program is integral).  The database is a pair of row lists; a SQL
`SELECT ... WHERE` is `List.find?`, `COUNT(*)` is `List.countP`, and
`INSERT` appends a row, made visible only when `conn.commit()` runs.
-/

set_option maxRecDepth 4096

/-- JSON values as produced by Flask request parsing / jsonify. -/
inductive Json where
  | null
  | bool (b : Bool)
  | num (n : Int)
  | str (s : String)
  | arr (elems : List Json)
  | obj (fields : List (String × Json))

/-- Python truthiness of a JSON value: `None`, `False`, `0`, `""`, `[]`
and `\x7b\x7d` are falsy, everything else truthy. -/
def Json.truthy : Json → Bool
  | .null => false
  | .bool b => b
  | .num n => n != 0
  | .str s => !s.isEmpty
  | .arr elems => !elems.isEmpty
  | .obj fields => !fields.isEmpty

/-- Python `dict.get k` on a parsed JSON object (keys are unique in a
Python dict, so first-match lookup is exact); `None` when absent. -/
def dictGet (fields : List (String × Json)) (k : String) : Json :=
  match fields.find? (fun kv => kv.1 == k) with
  | some kv => kv.2
  | none => .null

/-- Field lookup inside a JSON object, used to state properties of
response bodies. -/
def jGet : Json → String → Option Json
  | .obj fields, k => (fields.find? (fun kv => kv.1 == k)).map (fun kv => kv.2)
  | _, _ => none

/-- The Python exceptions the embedding distinguishes: `ValueError`
(the only one `create_company` catches around `uuid.UUID`),
`AttributeError` (raised by attribute access on a value lacking it),
and a database/driver exception carrying its message text. -/
inductive PyExc where
  | valueError
  | attributeError
  | dbError (msg : String)

/-- An HTTP response: status code plus JSON body. -/
structure Response where
  status : Nat
  body : Json

/-- Outcome of running a handler: a returned response, or an exception
that escapes the handler uncaught. -/
inductive HOut where
  | resp (r : Response)
  | exc (e : PyExc)

/-- A row of the external `employees` table
(`employees(id, email, company_id, company_name)`). -/
structure EmployeeRow where
  id : Nat
  email : String
  company_id : String
  company_name : String

/-- A row of the external `companies` table (`companies(company_id, name)`).
`name` is stored as the JSON value supplied by the client. -/
structure CompanyRow where
  company_id : String
  name : Json

/-- The database state visible to the service. -/
structure DB where
  employees : List EmployeeRow
  companies : List CompanyRow

/-- Result of one handler invocation: the outcome, the database state
after the request, and the resource/bookkeeping facts the spec talks
about (whether the connection and the cursor were opened and closed,
and whether the INSERT and the commit were executed). -/
structure HandlerResult where
  out : HOut
  db : DB
  connOpened : Bool
  connClosed : Bool
  curOpened : Bool
  curClosed : Bool
  didInsert : Bool
  didCommit : Bool

/-- Model of `format_response` (app.py lines 26-40): the uniform
envelope.  Field order follows the Python dict construction; the code
appends a literal "Z" to `datetime.now(UTC).isoformat()`. -/
def format_response (status_code : Nat) (err : Bool) (path ts : String)
    (payload : Option Json) (message : Option String) : Response :=
  { status := status_code
    body := .obj
      ([("statusCode", .num (Int.ofNat status_code)),
        ("error", .bool err),
        ("timestamp", .str (ts ++ "Z")),
        ("path", .str path)]
       ++ (match payload with
           | some p => [("payload", p)]
           | none => [])
       ++ (match message with
           | some m => [("message", .str m)]
           | none => [])) }

/-! ### CPython `uuid.UUID(hex)` string parsing

`uuid.UUID(s)` for a `str` argument normalises the string
(`s.replace("urn:", "").replace("uuid:", "").strip("\x7b\x7d").replace("-", "")`),
requires exactly 32 remaining characters, parses them with `int(_, 16)`
(which itself strips surrounding whitespace and accepts an optional
sign, an optional `0x`/`0X` prefix, and single underscores between
digits), and finally requires the value to lie in `[0, 2^128)`.  Any
failure raises `ValueError`.  On a non-`str` argument the very first
step (`.replace`) raises `AttributeError` instead. -/

/-- True for the characters `str.strip("\x7b\x7d")` removes. -/
def isBraceChar (c : Char) : Bool := c.toNat == 123 || c.toNat == 125

/-- ASCII whitespace stripped by Python `int(s, 16)`. -/
def pyWs (c : Char) : Bool :=
  c.toNat == 32 || c.toNat == 9 || c.toNat == 10 || c.toNat == 13 ||
  c.toNat == 11 || c.toNat == 12

/-- Hexadecimal value of a character, if any (both cases accepted). -/
def hexVal (c : Char) : Option Nat :=
  if 48 ≤ c.toNat && c.toNat ≤ 57 then some (c.toNat - 48)
  else if 97 ≤ c.toNat && c.toNat ≤ 102 then some (c.toNat - 87)
  else if 65 ≤ c.toNat && c.toNat ≤ 70 then some (c.toNat - 55)
  else none

/-- Does `pat` occur at the head of the second list? -/
def startsWithCh : List Char → List Char → Bool
  | [], _ => true
  | _ :: _, [] => false
  | p :: ps, c :: cs => p == c && startsWithCh ps cs

/-- Worker for `removeSub`, structurally recursive on a fuel bound so
that it reduces inside the kernel; at least one character is consumed
per step, so fuel equal to the list length never runs out. -/
def removeSubAux (pat : List Char) : Nat → List Char → List Char
  | _, [] => []
  | 0, cs => cs
  | fuel + 1, c :: cs =>
    if !pat.isEmpty && startsWithCh pat (c :: cs) then
      removeSubAux pat fuel (List.drop (pat.length - 1) cs)
    else
      c :: removeSubAux pat fuel cs

/-- Python `s.replace(pat, "")`: remove every (leftmost, non-overlapping)
occurrence of `pat`. -/
def removeSub (pat cs : List Char) : List Char :=
  removeSubAux pat cs.length cs

/-- Python `s.strip("\x7b\x7d")`: remove leading and trailing braces. -/
def stripBraceEnds (cs : List Char) : List Char :=
  ((cs.dropWhile isBraceChar).reverse.dropWhile isBraceChar).reverse

/-- Digit tail of Python `int(_, 16)`: hexadecimal digits with single
underscores allowed between digits, accumulating the value. -/
def hexDigitsVal : List Char → Nat → Option Nat
  | [], acc => some acc
  | c :: cs, acc =>
    if c.toNat == 95 then
      match cs with
      | [] => none
      | d :: ds =>
        match hexVal d with
        | some v => hexDigitsVal ds (acc * 16 + v)
        | none => none
    else
      match hexVal c with
      | some v => hexDigitsVal cs (acc * 16 + v)
      | none => none

/-- Digit part of Python `int(_, 16)`: at least one digit, which must
not be an underscore. -/
def hexStart : List Char → Option Nat
  | [] => none
  | c :: cs =>
    match hexVal c with
    | some v => hexDigitsVal cs v
    | none => none

/-- Python `int(_, 16)` after the optional sign: an optional `0x`/`0X`
prefix (itself optionally followed by one underscore), then digits. -/
def hexAfterSign (cs : List Char) : Option Nat :=
  match cs with
  | '0' :: c :: rest =>
    if c == 'x' || c == 'X' then
      match rest with
      | c2 :: rest2 => if c2.toNat == 95 then hexStart rest2 else hexStart rest
      | [] => none
    else hexStart cs
  | _ => hexStart cs

/-- Python `int(s, 16)` on a character list: strip ASCII whitespace at
both ends, optional sign, then the base-16 digit grammar. -/
def pyIntHexChars (cs0 : List Char) : Option Int :=
  let cs := ((cs0.dropWhile pyWs).reverse.dropWhile pyWs).reverse
  match cs with
  | c :: rest =>
    if c == '+' then (hexAfterSign rest).map Int.ofNat
    else if c == '-' then (hexAfterSign rest).map (fun n => -(Int.ofNat n))
    else (hexAfterSign cs).map Int.ofNat
  | [] => none

/-- CPython `uuid.UUID(hex = s)` for a string `s`: `some n` on success
(`n` the 128-bit value), `none` when the constructor raises
`ValueError`. -/
def uuid_UUID_hex (s : String) : Option Nat :=
  let cs1 := removeSub "urn:".data s.data
  let cs2 := removeSub "uuid:".data cs1
  let cs3 := stripBraceEnds cs2
  let cs4 := cs3.filter (fun c => c.toNat != 45)
  if cs4.length != 32 then none
  else
    match pyIntHexChars cs4 with
    | some v => if 0 ≤ v && v < (2 : Int) ^ 128 then some v.toNat else none
    | none => none

/-- `uuid.uuid4().hex` for underlying random value `g` (always below
`2^128` for a real uuid4): `format(g, "032x")`, 32 lowercase hex
digits, most significant first. -/
def uuid4_hex (g : Nat) : List Char :=
  (List.range 32).map (fun i => Nat.digitChar (g % 2 ^ 128 / 16 ^ (31 - i) % 16))

/-- `uuid.uuid4().hex[:24]` (app.py line 205): the mocked response id. -/
def gen_hex24 (g : Nat) : String :=
  String.mk ((uuid4_hex g).take 24)

/-! ### The route handlers (app.py lines 42-256) -/

/-- The per-employee payload shape built by both employee handlers
(app.py lines 55-60 and 86-92): `id` and `company_id` pass through
`str(...)`. -/
def employee_payload (emp : EmployeeRow) : Json :=
  .obj [("id", .str (Nat.repr emp.id)),
        ("email", .str emp.email),
        ("companyId", .str emp.company_id),
        ("companyName", .str emp.company_name)]

/-- The per-company payload shape built by the company read handlers
(app.py lines 116-122 and 146-149). -/
def company_payload (c : CompanyRow) : Json :=
  .obj [("companyId", .str c.company_id), ("name", c.name)]

/-- `GET /employee/<email>` (app.py lines 42-71).  `SELECT ... WHERE
email = %s` with `fetchone()` is `List.find?` on the table; the
`finally` block closes cursor and connection on every path after the
connection is acquired. -/
def get_employee_by_email (email path ts : String) (db : DB)
    (connOk : Bool) (ef : List (Option String)) : HandlerResult :=
  if connOk = false then
    ⟨.resp (format_response 500 true path ts none (some "Database connection failed")),
     db, false, false, false, false, false, false⟩
  else
    match ef.getD 0 none with
    | some m =>
      ⟨.resp (format_response 500 true path ts none (some ("Internal server error: " ++ m))),
       db, true, true, true, true, false, false⟩
    | none =>
      match db.employees.find? (fun r => r.email == email) with
      | some emp =>
        ⟨.resp (format_response 200 false path ts (some (employee_payload emp)) none),
         db, true, true, true, true, false, false⟩
      | none =>
        ⟨.resp (format_response 404 true path ts none
           (some ("Employee with email \x27" ++ email ++ "\x27 not found"))),
         db, true, true, true, true, false, false⟩

/-- `GET /employees` (app.py lines 73-102): `fetchall()` over the whole
table, mapped to the shared employee payload shape. -/
def get_all_employees (path ts : String) (db : DB)
    (connOk : Bool) (ef : List (Option String)) : HandlerResult :=
  if connOk = false then
    ⟨.resp (format_response 500 true path ts none (some "Database connection failed")),
     db, false, false, false, false, false, false⟩
  else
    match ef.getD 0 none with
    | some m =>
      ⟨.resp (format_response 500 true path ts none (some ("Internal server error: " ++ m))),
       db, true, true, true, true, false, false⟩
    | none =>
      ⟨.resp (format_response 200 false path ts
         (some (.arr (db.employees.map employee_payload))) none),
       db, true, true, true, true, false, false⟩

/-- `GET /companies` (app.py lines 104-131). -/
def get_all_companies (path ts : String) (db : DB)
    (connOk : Bool) (ef : List (Option String)) : HandlerResult :=
  if connOk = false then
    ⟨.resp (format_response 500 true path ts none (some "Database connection failed")),
     db, false, false, false, false, false, false⟩
  else
    match ef.getD 0 none with
    | some m =>
      ⟨.resp (format_response 500 true path ts none (some ("Internal server error: " ++ m))),
       db, true, true, true, true, false, false⟩
    | none =>
      ⟨.resp (format_response 200 false path ts
         (some (.arr (db.companies.map company_payload))) none),
       db, true, true, true, true, false, false⟩

/-- `GET /companies/<company_id>` (app.py lines 133-160); no UUID
validation on this route. -/
def get_company_by_id (company_id path ts : String) (db : DB)
    (connOk : Bool) (ef : List (Option String)) : HandlerResult :=
  if connOk = false then
    ⟨.resp (format_response 500 true path ts none (some "Database connection failed")),
     db, false, false, false, false, false, false⟩
  else
    match ef.getD 0 none with
    | some m =>
      ⟨.resp (format_response 500 true path ts none (some ("Internal server error: " ++ m))),
       db, true, true, true, true, false, false⟩
    | none =>
      match db.companies.find? (fun c => c.company_id == company_id) with
      | some c =>
        ⟨.resp (format_response 200 false path ts (some (company_payload c)) none),
         db, true, true, true, true, false, false⟩
      | none =>
        ⟨.resp (format_response 404 true path ts none
           (some ("Company with ID \x27" ++ company_id ++ "\x27 not found"))),
         db, true, true, true, true, false, false⟩

/-- The ad-hoc (non-enveloped) 201 body of `create_company`
(app.py lines 207-230). -/
def create_company_payload (cid : String) (nm : Json) (e1 e2 : Int) (g : Nat) : Json :=
  .obj [("type", .str "company"),
        ("company_id", .str cid),
        ("id", .str (gen_hex24 g)),
        ("app_id", .str "w9shsv7c"),
        ("name", nm),
        ("created_at", .num e1),
        ("updated_at", .num e2),
        ("monthly_spend", .num 0),
        ("session_count", .num 0),
        ("user_count", .num 0),
        ("tags", .obj [("type", .str "tag.list"), ("tags", .arr [])]),
        ("segments", .obj [("type", .str "segment.list"), ("segments", .arr [])]),
        ("plan", .obj []),
        ("custom_attributes", .obj [("creation_source", .str "api")])]

/-- `POST /companies` (app.py lines 162-240).  Control flow mirrors the
source: falsy parsed body → 400; `data.get` on a non-dict raises
`AttributeError` (uncaught); missing/falsy field → 400; `uuid.UUID`
on a non-string raises `AttributeError` (only `ValueError` is caught,
yielding the 400), on an invalid string `ValueError` → 400; then the
connection is opened, a COUNT pre-check decides 409; otherwise INSERT
and commit; any exception in the try block is caught, rolled back and
mapped to 500; the `finally` block closes cursor and connection. -/
def create_company (path ts : String) (e1 e2 : Int) (g : Nat) (db : DB)
    (connOk : Bool) (ef : List (Option String)) (cf : Option String)
    (body : Option Json) : HandlerResult :=
  match body with
  | none =>
    ⟨.resp (format_response 400 true path ts none (some "Request body must be JSON")),
     db, false, false, false, false, false, false⟩
  | some data =>
    if data.truthy = false then
      ⟨.resp (format_response 400 true path ts none (some "Request body must be JSON")),
       db, false, false, false, false, false, false⟩
    else
      match data with
      | .obj fields =>
        let company_id := dictGet fields "company_id"
        let name := dictGet fields "name"
        if !company_id.truthy || !name.truthy then
          ⟨.resp (format_response 400 true path ts none
             (some "Missing \x27company_id\x27 or \x27name\x27 in request body")),
           db, false, false, false, false, false, false⟩
        else
          match company_id with
          | .str cid =>
            match uuid_UUID_hex cid with
            | none =>
              ⟨.resp (format_response 400 true path ts none
                 (some "Invalid \x27company_id\x27 format (must be a valid UUID)")),
               db, false, false, false, false, false, false⟩
            | some _ =>
              if connOk = false then
                ⟨.resp (format_response 500 true path ts none
                   (some "Database connection failed")),
                 db, false, false, false, false, false, false⟩
              else
                match ef.getD 0 none with
                | some m =>
                  ⟨.resp (format_response 500 true path ts none
                     (some ("Internal server error: " ++ m))),
                   db, true, true, true, true, false, false⟩
                | none =>
                  if db.companies.countP (fun c => c.company_id == cid) > 0 then
                    ⟨.resp (format_response 409 true path ts none
                       (some ("Company with ID \x27" ++ cid ++ "\x27 already exists"))),
                     db, true, true, true, true, false, false⟩
                  else
                    match ef.getD 1 none with
                    | some m =>
                      ⟨.resp (format_response 500 true path ts none
                         (some ("Internal server error: " ++ m))),
                       db, true, true, true, true, false, false⟩
                    | none =>
                      match cf with
                      | some m =>
                        ⟨.resp (format_response 500 true path ts none
                           (some ("Internal server error: " ++ m))),
                         db, true, true, true, true, true, false⟩
                      | none =>
                        ⟨.resp ⟨201, create_company_payload cid name e1 e2 g⟩,
                         { db with companies := db.companies ++ [⟨cid, name⟩] },
                         true, true, true, true, true, true⟩
          | _ =>
            ⟨.exc .attributeError, db, false, false, false, false, false, false⟩
      | _ =>
        ⟨.exc .attributeError, db, false, false, false, false, false, false⟩

/-- `GET /order-status` (app.py lines 246-256): constant payload, no
database interaction of any kind. -/
def get_order_status (path ts : String) (db : DB) : HandlerResult :=
  ⟨.resp (format_response 200 false path ts
     (some (.obj [("eligibleForRefund", .bool true)])) none),
   db, false, false, false, false, false, false⟩

/-! ### Observation helpers for the theorems -/

/-- HTTP status of an outcome, `none` when the handler raised. -/
def outStatus : HOut → Option Nat
  | .resp r => some r.status
  | .exc _ => none

/-- Body-field lookup on an outcome. -/
def outBodyGet (o : HOut) (k : String) : Option Json :=
  match o with
  | .resp r => jGet r.body k
  | .exc _ => none

/-- Structural check that a response is the uniform envelope of §4.1
for request path `path` and clock reading `ts`: a single JSON object
starting with `statusCode` (mirroring the HTTP status), `error`
(boolean), `timestamp` (the ISO clock string with trailing "Z") and
`path`, followed only by optional `payload` and/or `message` fields. -/
def isEnvelope (r : Response) (path ts : String) : Bool :=
  match r.body with
  | .obj (("statusCode", .num sc) :: ("error", .bool _) ::
          ("timestamp", .str t) :: ("path", .str p) :: rest) =>
    sc == Int.ofNat r.status && t == ts ++ "Z" && p == path &&
      rest.all (fun kv => kv.1 == "payload" || kv.1 == "message")
  | _ => false

/-- Every response the handler returns is the uniform envelope
(exception escapes produce no handler response). -/
def respIsEnvelope (res : HandlerResult) (path ts : String) : Bool :=
  match res.out with
  | .resp r => isEnvelope r path ts
  | .exc _ => true

/-- Same check for `create_company`, whose 201 success body is exempted
by the spec. -/
def createRespEnvelopeOr201 (res : HandlerResult) (path ts : String) : Bool :=
  match res.out with
  | .resp r => r.status == 201 || isEnvelope r path ts
  | .exc _ => true

/-- Resource safety of one handler run: the connection, when opened,
was closed, and the cursor, when opened, was closed. -/
def connSafe (res : HandlerResult) : Bool :=
  (!res.connOpened || res.connClosed) && (!res.curOpened || res.curClosed)

/-- Every instantiation of `format_response` satisfies the envelope
check. -/
theorem isEnvelope_format_response (status_code : Nat) (err : Bool)
    (path ts : String) (payload : Option Json) (message : Option String) :
    isEnvelope (format_response status_code err path ts payload message) path ts = true := by
  cases payload <;> cases message <;>
    simp [isEnvelope, format_response, List.all]

/-- Companies sample UUID used by concrete witnesses: a canonical
hyphenated UUID string. -/
def sampleUuid : String := "123e4567-e89b-12d3-a456-426614174000"

/-! ### Claims -/

/-- C9: for every request to GET /order-status, in every state, the
response is HTTP 200 with the envelope carrying statusCode 200,
error false and payload eligibleForRefund true, and the handler
performs no database access (no connection, no cursor, database
unchanged). -/
theorem get_order_status_constant (path ts : String) (db : DB) :
    get_order_status path ts db =
      ⟨.resp ⟨200, .obj [("statusCode", .num 200),
                         ("error", .bool false),
                         ("timestamp", .str (ts ++ "Z")),
                         ("path", .str path),
                         ("payload", .obj [("eligibleForRefund", .bool true)])]⟩,
       db, false, false, false, false, false, false⟩ := rfl

/-- C10: a POST /companies body whose company_id is the truthy
non-string JSON number 123 (with a non-empty name) makes
uuid.UUID raise an AttributeError, which the except ValueError
clause does not catch: the handler raises instead of returning the
specified HTTP 400 envelope (and this happens before any database
connection is opened). -/
theorem create_company_nonstring_company_id_uncaught :
    (create_company "/companies" "T" 0 0 0 ⟨[], []⟩ true [] none
        (some (.obj [("company_id", .num 123), ("name", .str "Acme")]))) =
      ⟨.exc .attributeError, ⟨[], []⟩, false, false, false, false, false, false⟩ := rfl

theorem create_company_branches (path ts : String) (e1 e2 : Int)
    (g : Nat) (db : DB) (connOk : Bool) (ef : List (Option String))
    (cf : Option String) (body : Option Json) :
    createRespEnvelopeOr201 (create_company path ts e1 e2 g db connOk ef cf body) path ts = true ∧
    connSafe (create_company path ts e1 e2 g db connOk ef cf body) = true := by
  cases body with
  | none =>
    unfold create_company
    simp [createRespEnvelopeOr201, connSafe, isEnvelope_format_response]
  | some data =>
    cases htr : data.truthy with
    | false =>
      unfold create_company
      simp [htr, createRespEnvelopeOr201, connSafe, isEnvelope_format_response]
    | true =>
      cases data with
      | null => simp [Json.truthy] at htr
      | bool b =>
        unfold create_company
        simp [htr, createRespEnvelopeOr201, connSafe]
      | num n =>
        unfold create_company
        simp [htr, createRespEnvelopeOr201, connSafe]
      | str s =>
        unfold create_company
        simp [htr, createRespEnvelopeOr201, connSafe]
      | arr es =>
        unfold create_company
        simp [htr, createRespEnvelopeOr201, connSafe]
      | obj fields =>
        unfold create_company
        simp only [htr, Bool.true_eq_false, if_false, reduceIte]
        cases hmiss : (!(dictGet fields "company_id").truthy || !(dictGet fields "name").truthy) with
        | true =>
          simp [hmiss, createRespEnvelopeOr201, connSafe, isEnvelope_format_response]
        | false =>
          simp only [hmiss, Bool.false_eq_true, if_false, reduceIte]
          cases hc : dictGet fields "company_id" with
          | str s =>
            cases hu : uuid_UUID_hex s with
            | none =>
              simp [hu, createRespEnvelopeOr201, connSafe, isEnvelope_format_response]
            | some v =>
              cases connOk with
              | false =>
                simp [hu, createRespEnvelopeOr201, connSafe, isEnvelope_format_response]
              | true =>
                simp only [hu, reduceIte]
                cases hq0 : ef.getD 0 none with
                | some m =>
                  simp [hq0, createRespEnvelopeOr201, connSafe, isEnvelope_format_response]
                | none =>
                  simp only [hq0]
                  by_cases hcount : db.companies.countP (fun c => c.company_id == s) > 0
                  · simp [hcount, createRespEnvelopeOr201, connSafe, isEnvelope_format_response]
                  · simp only [hcount, if_false, reduceIte]
                    cases hq1 : ef.getD 1 none with
                    | some m =>
                      simp [hq1, createRespEnvelopeOr201, connSafe, isEnvelope_format_response]
                    | none =>
                      simp only [hq1]
                      cases cf with
                      | some m =>
                        simp [createRespEnvelopeOr201, connSafe, isEnvelope_format_response]
                      | none =>
                        simp [createRespEnvelopeOr201, connSafe]
          | null => simp [createRespEnvelopeOr201, connSafe]
          | bool b => simp [createRespEnvelopeOr201, connSafe]
          | num n => simp [createRespEnvelopeOr201, connSafe]
          | arr es => simp [createRespEnvelopeOr201, connSafe]
          | obj fs => simp [createRespEnvelopeOr201, connSafe]

/-- C7: every response any handler returns — success or failure — is
the uniform envelope (statusCode mirroring the HTTP status, boolean
error, timestamp with trailing "Z", the request path, plus only
optional payload / message fields), with the sole exception of the
create-company 201 success response. -/
theorem response_envelope_uniform (email cid path ts : String) (e1 e2 : Int)
    (g : Nat) (db : DB) (connOk : Bool) (ef : List (Option String))
    (cf : Option String) (body : Option Json) :
    respIsEnvelope (get_employee_by_email email path ts db connOk ef) path ts = true ∧
    respIsEnvelope (get_all_employees path ts db connOk ef) path ts = true ∧
    respIsEnvelope (get_all_companies path ts db connOk ef) path ts = true ∧
    respIsEnvelope (get_company_by_id cid path ts db connOk ef) path ts = true ∧
    respIsEnvelope (get_order_status path ts db) path ts = true ∧
    createRespEnvelopeOr201 (create_company path ts e1 e2 g db connOk ef cf body) path ts = true := by
  refine ⟨?_, ?_, ?_, ?_, ?_, ?_⟩
  · unfold get_employee_by_email
    repeat' split
    all_goals simp [respIsEnvelope, isEnvelope_format_response]
  · unfold get_all_employees
    repeat' split
    all_goals simp [respIsEnvelope, isEnvelope_format_response]
  · unfold get_all_companies
    repeat' split
    all_goals simp [respIsEnvelope, isEnvelope_format_response]
  · unfold get_company_by_id
    repeat' split
    all_goals simp [respIsEnvelope, isEnvelope_format_response]
  · simp [get_order_status, respIsEnvelope, isEnvelope_format_response]
  · exact (create_company_branches path ts e1 e2 g db connOk ef cf body).1

/-- C8: in every handler that opens a database connection, on every
exit path — normal return, not-found, conflict, or exception caught in
the try block — a connection that was acquired is closed before the
response is returned, and likewise for the cursor. -/
theorem connection_always_closed (email cid path ts : String) (e1 e2 : Int)
    (g : Nat) (db : DB) (connOk : Bool) (ef : List (Option String))
    (cf : Option String) (body : Option Json) :
    connSafe (get_employee_by_email email path ts db connOk ef) = true ∧
    connSafe (get_all_employees path ts db connOk ef) = true ∧
    connSafe (get_all_companies path ts db connOk ef) = true ∧
    connSafe (get_company_by_id cid path ts db connOk ef) = true ∧
    connSafe (create_company path ts e1 e2 g db connOk ef cf body) = true := by
  refine ⟨?_, ?_, ?_, ?_, ?_⟩
  · unfold get_employee_by_email
    repeat' split
    all_goals simp [connSafe]
  · unfold get_all_employees
    repeat' split
    all_goals simp [connSafe]
  · unfold get_all_companies
    repeat' split
    all_goals simp [connSafe]
  · unfold get_company_by_id
    repeat' split
    all_goals simp [connSafe]
  · exact (create_company_branches path ts e1 e2 g db connOk ef cf body).2

/-- C3: with a working connection and a successful query, GET
/employee/E returns, for every email E present in the employees table,
HTTP 200 with the envelope payload carrying id, email, companyId and
companyName of the matching row (identifier fields serialized as
strings), and for every email not present HTTP 404 with error true and
a message naming the missing email. -/
theorem get_employee_by_email_spec (email path ts : String) (db : DB)
    (ef : List (Option String)) (hq : ef.getD 0 none = none) :
    (∀ row, db.employees.find? (fun r => r.email == email) = some row →
      (get_employee_by_email email path ts db true ef).out =
        .resp (format_response 200 false path ts
          (some (.obj [("id", .str (Nat.repr row.id)),
                       ("email", .str row.email),
                       ("companyId", .str row.company_id),
                       ("companyName", .str row.company_name)])) none)) ∧
    (db.employees.find? (fun r => r.email == email) = none →
      (get_employee_by_email email path ts db true ef).out =
        .resp (format_response 404 true path ts none
          (some ("Employee with email \x27" ++ email ++ "\x27 not found")))) := by
  have hq' : ef[0]?.getD none = none := by
    rw [List.getD_eq_getElem?_getD] at hq
    exact hq
  constructor
  · intro row h
    simp [get_employee_by_email, hq', h, employee_payload]
  · intro h
    simp [get_employee_by_email, hq', h]

/-- Witness for C3 at a concrete one-row table: the present email
"a@b.c" yields the 200 payload, the absent email "z@b.c" the 404. -/
theorem get_employee_by_email_spec_witness :
    (get_employee_by_email "a@b.c" "/employee/a@b.c" "T"
        ⟨[⟨7, "a@b.c", "c1", "Acme"⟩], []⟩ true []).out =
      .resp (format_response 200 false "/employee/a@b.c" "T"
        (some (.obj [("id", .str "7"), ("email", .str "a@b.c"),
                     ("companyId", .str "c1"), ("companyName", .str "Acme")])) none) ∧
    (get_employee_by_email "z@b.c" "/employee/z@b.c" "T"
        ⟨[⟨7, "a@b.c", "c1", "Acme"⟩], []⟩ true []).out =
      .resp (format_response 404 true "/employee/z@b.c" "T" none
        (some ("Employee with email \x27z@b.c\x27 not found"))) := by
  constructor
  · exact (get_employee_by_email_spec "a@b.c" "/employee/a@b.c" "T"
      ⟨[⟨7, "a@b.c", "c1", "Acme"⟩], []⟩ [] rfl).1 ⟨7, "a@b.c", "c1", "Acme"⟩ rfl
  · exact (get_employee_by_email_spec "z@b.c" "/employee/z@b.c" "T"
      ⟨[⟨7, "a@b.c", "c1", "Acme"⟩], []⟩ [] rfl).2 rfl

/-- Counterexample to C1 as stated: a truthy JSON body that is not an
object (here the JSON string "x", a valid JSON request body) has
company_id absent, yet the handler does not return the specified 400
envelope — data.get raises an uncaught AttributeError. -/
theorem create_company_nonobject_body_uncaught :
    create_company "/companies" "T" 0 0 0 ⟨[], []⟩ true [] none
        (some (.str "x")) =
      ⟨.exc .attributeError, ⟨[], []⟩, false, false, false, false, false, false⟩ := rfl

/-- C1 (amended): a missing body or one whose parsed JSON value is
falsy yields HTTP 400 "Request body must be JSON"; when the (truthy)
body is a JSON object, the checks apply in the specified order —
company_id or name absent/falsy gives HTTP 400 naming both fields,
then a company_id that is a string not parsing as a UUID gives HTTP
400 stating the invalid format — and each of these failures is
returned before any database connection is opened, leaving the
database untouched.  (A truthy non-object body, or a truthy non-string
company_id, instead raises an uncaught exception.) -/
theorem create_company_validation_order (path ts : String) (e1 e2 : Int)
    (g : Nat) (db : DB) (connOk : Bool) (ef : List (Option String))
    (cf : Option String) :
    (∀ body : Option Json, (body = none ∨ ∃ j, body = some j ∧ j.truthy = false) →
      create_company path ts e1 e2 g db connOk ef cf body =
        ⟨.resp (format_response 400 true path ts none (some "Request body must be JSON")),
         db, false, false, false, false, false, false⟩) ∧
    (∀ fields : List (String × Json),
      ((dictGet fields "company_id").truthy = false ∨ (dictGet fields "name").truthy = false) →
      (Json.obj fields).truthy = true →
      create_company path ts e1 e2 g db connOk ef cf (some (.obj fields)) =
        ⟨.resp (format_response 400 true path ts none
           (some "Missing \x27company_id\x27 or \x27name\x27 in request body")),
         db, false, false, false, false, false, false⟩) ∧
    (∀ (fields : List (String × Json)) (s : String),
      dictGet fields "company_id" = Json.str s →
      (Json.str s).truthy = true →
      (dictGet fields "name").truthy = true →
      uuid_UUID_hex s = none →
      create_company path ts e1 e2 g db connOk ef cf (some (.obj fields)) =
        ⟨.resp (format_response 400 true path ts none
           (some "Invalid \x27company_id\x27 format (must be a valid UUID)")),
         db, false, false, false, false, false, false⟩) := by
  refine ⟨?_, ?_, ?_⟩
  · intro body h
    rcases h with h | ⟨j, hj, hjf⟩
    · subst h; rfl
    · subst hj
      unfold create_company
      simp [hjf]
  · intro fields hmiss htr
    unfold create_company
    rcases hmiss with h | h <;> simp [htr, h]
  · intro fields s hcid hst hname huuid
    have hne : fields.isEmpty = false := by
      cases fields with
      | nil => simp [dictGet] at hcid
      | cons a t => rfl
    have htr : (Json.obj fields).truthy = true := by simp [Json.truthy, hne]
    unfold create_company
    simp [htr, hcid, hst, hname, huuid]

/-- Witness for C1 (amended) at concrete inputs: a missing body, an
object body missing company_id, and an object body whose company_id
"abc" is not a UUID. -/
theorem create_company_validation_order_witness :
    create_company "/companies" "T" 0 0 0 ⟨[], []⟩ true [] none none =
      ⟨.resp (format_response 400 true "/companies" "T" none
         (some "Request body must be JSON")),
       ⟨[], []⟩, false, false, false, false, false, false⟩ ∧
    create_company "/companies" "T" 0 0 0 ⟨[], []⟩ true [] none
        (some (.obj [("name", .str "x")])) =
      ⟨.resp (format_response 400 true "/companies" "T" none
         (some "Missing \x27company_id\x27 or \x27name\x27 in request body")),
       ⟨[], []⟩, false, false, false, false, false, false⟩ ∧
    create_company "/companies" "T" 0 0 0 ⟨[], []⟩ true [] none
        (some (.obj [("company_id", .str "abc"), ("name", .str "x")])) =
      ⟨.resp (format_response 400 true "/companies" "T" none
         (some "Invalid \x27company_id\x27 format (must be a valid UUID)")),
       ⟨[], []⟩, false, false, false, false, false, false⟩ := by
  refine ⟨?_, ?_, ?_⟩
  · exact (create_company_validation_order "/companies" "T" 0 0 0 ⟨[], []⟩ true [] none).1
      none (Or.inl rfl)
  · exact (create_company_validation_order "/companies" "T" 0 0 0 ⟨[], []⟩ true [] none).2.1
      [("name", .str "x")] (Or.inl rfl) rfl
  · exact (create_company_validation_order "/companies" "T" 0 0 0 ⟨[], []⟩ true [] none).2.2
      [("company_id", .str "abc"), ("name", .str "x")] "abc" rfl rfl rfl rfl

/-- The generated response id `uuid4().hex[:24]` has exactly 24
characters. -/
theorem gen_hex24_length (g : Nat) : (gen_hex24 g).length = 24 := by
  simp [gen_hex24, uuid4_hex]

/-- Every character of the generated response id is a hexadecimal
digit (it has a hexadecimal value). -/
theorem gen_hex24_hex (g : Nat) : ∀ c ∈ (gen_hex24 g).data, (hexVal c).isSome = true := by
  intro c hc
  have key : ∀ d, d < 16 → (hexVal (Nat.digitChar d)).isSome = true := by decide
  have hc2 : c ∈ (uuid4_hex g).take 24 := hc
  have hc3 : c ∈ uuid4_hex g := List.take_subset _ _ hc2
  rw [uuid4_hex] at hc3
  obtain ⟨i, hi, rfl⟩ := List.mem_map.mp hc3
  exact key _ (Nat.mod_lt _ (by omega))

/-- Helper: full reduction of `create_company` on the success path — a
truthy JSON-object body whose company_id is a non-empty string parsing
as a UUID and not yet present in the table, a non-empty name, a
working connection, and no query or commit failure.  The row is
appended and committed and the 201 ad-hoc body returned. -/
theorem create_company_success_run (path ts : String) (e1 e2 : Int)
    (g : Nat) (db : DB) (ef : List (Option String))
    (fields : List (String × Json)) (s : String) (nm : Json)
    (hcid : dictGet fields "company_id" = Json.str s)
    (hst : (Json.str s).truthy = true)
    (hnm : dictGet fields "name" = nm)
    (hnmt : nm.truthy = true)
    (huuid : (uuid_UUID_hex s).isSome = true)
    (hq0 : ef.getD 0 none = none)
    (hq1 : ef.getD 1 none = none)
    (hfresh : db.companies.countP (fun c => c.company_id == s) = 0) :
    create_company path ts e1 e2 g db true ef none (some (.obj fields)) =
      ⟨.resp ⟨201, create_company_payload s nm e1 e2 g⟩,
       ⟨db.employees, db.companies ++ [⟨s, nm⟩]⟩,
       true, true, true, true, true, true⟩ := by
  obtain ⟨v, hv⟩ := Option.isSome_iff_exists.mp huuid
  have hne : fields.isEmpty = false := by
    cases fields with
    | nil => simp [dictGet] at hcid
    | cons a t => rfl
  have htr : (Json.obj fields).truthy = true := by simp [Json.truthy, hne]
  have hq0' : ef[0]?.getD none = none := by
    rw [List.getD_eq_getElem?_getD] at hq0; exact hq0
  have hq1' : ef[1]?.getD none = none := by
    rw [List.getD_eq_getElem?_getD] at hq1; exact hq1
  unfold create_company
  simp [htr, hcid, hst, hnm, hnmt, hv, hq0', hq1', hfresh]

/-- C2: a POST /companies whose valid-UUID company_id already has a
row in the companies table gets HTTP 409 with a message naming the
conflicting id, and the table is unchanged — no insert and no commit
is executed on that path. -/
theorem create_company_conflict_409 (path ts : String) (e1 e2 : Int)
    (g : Nat) (db : DB) (ef : List (Option String)) (cf : Option String)
    (fields : List (String × Json)) (s : String)
    (hcid : dictGet fields "company_id" = Json.str s)
    (hst : (Json.str s).truthy = true)
    (hname : (dictGet fields "name").truthy = true)
    (huuid : (uuid_UUID_hex s).isSome = true)
    (hq0 : ef.getD 0 none = none)
    (hdup : 0 < db.companies.countP (fun c => c.company_id == s)) :
    create_company path ts e1 e2 g db true ef cf (some (.obj fields)) =
      ⟨.resp (format_response 409 true path ts none
         (some ("Company with ID \x27" ++ s ++ "\x27 already exists"))),
       db, true, true, true, true, false, false⟩ := by
  obtain ⟨v, hv⟩ := Option.isSome_iff_exists.mp huuid
  have hne : fields.isEmpty = false := by
    cases fields with
    | nil => simp [dictGet] at hcid
    | cons a t => rfl
  have htr : (Json.obj fields).truthy = true := by simp [Json.truthy, hne]
  have hq0' : ef[0]?.getD none = none := by
    rw [List.getD_eq_getElem?_getD] at hq0; exact hq0
  unfold create_company
  simp [htr, hcid, hst, hname, hv, hq0', hdup]

/-- Witness for C2: creating `sampleUuid` while a row with that id is
already in the table yields the 409 and leaves the table as it was. -/
theorem create_company_conflict_409_witness :
    create_company "/companies" "T" 0 0 0 ⟨[], [⟨sampleUuid, Json.str "n"⟩]⟩ true [] none
        (some (.obj [("company_id", Json.str sampleUuid), ("name", Json.str "Acme")])) =
      ⟨.resp (format_response 409 true "/companies" "T" none
         (some ("Company with ID \x27" ++ sampleUuid ++ "\x27 already exists"))),
       ⟨[], [⟨sampleUuid, Json.str "n"⟩]⟩, true, true, true, true, false, false⟩ :=
  create_company_conflict_409 "/companies" "T" 0 0 0 ⟨[], [⟨sampleUuid, Json.str "n"⟩]⟩
    [] none [("company_id", Json.str sampleUuid), ("name", Json.str "Acme")] sampleUuid
    rfl rfl rfl (by decide) rfl (by decide)

/-- C4: a POST /companies with a valid-UUID company_id not yet in the
table and a non-empty name, when the insert and the commit succeed,
returns HTTP 201 with the non-enveloped ad-hoc body whose company_id
equals the input, whose id is the 24-character hexadecimal string
generated from uuid4, whose name equals the input, whose type is
"company" and whose app_id is the hardcoded constant "w9shsv7c". -/
theorem create_company_created_response (path ts : String) (e1 e2 : Int)
    (g : Nat) (db : DB) (ef : List (Option String))
    (fields : List (String × Json)) (s : String) (nm : Json)
    (hcid : dictGet fields "company_id" = Json.str s)
    (hst : (Json.str s).truthy = true)
    (hnm : dictGet fields "name" = nm)
    (hnmt : nm.truthy = true)
    (huuid : (uuid_UUID_hex s).isSome = true)
    (hq0 : ef.getD 0 none = none)
    (hq1 : ef.getD 1 none = none)
    (hfresh : db.companies.countP (fun c => c.company_id == s) = 0) :
    (create_company path ts e1 e2 g db true ef none (some (.obj fields))).out =
      .resp ⟨201, create_company_payload s nm e1 e2 g⟩ ∧
    jGet (create_company_payload s nm e1 e2 g) "type" = some (.str "company") ∧
    jGet (create_company_payload s nm e1 e2 g) "company_id" = some (.str s) ∧
    jGet (create_company_payload s nm e1 e2 g) "id" = some (.str (gen_hex24 g)) ∧
    jGet (create_company_payload s nm e1 e2 g) "app_id" = some (.str "w9shsv7c") ∧
    jGet (create_company_payload s nm e1 e2 g) "name" = some nm ∧
    (gen_hex24 g).length = 24 ∧
    (∀ c ∈ (gen_hex24 g).data, (hexVal c).isSome = true) := by
  refine ⟨?_, rfl, rfl, rfl, rfl, rfl, gen_hex24_length g, gen_hex24_hex g⟩
  rw [create_company_success_run path ts e1 e2 g db ef fields s nm
    hcid hst hnm hnmt huuid hq0 hq1 hfresh]

/-- Witness for C4: creating `sampleUuid` with name "Acme" in an empty
table returns the 201 ad-hoc body, whose id has 24 characters. -/
theorem create_company_created_response_witness :
    (create_company "/companies" "T" 5 5 0 ⟨[], []⟩ true [] none
        (some (.obj [("company_id", Json.str sampleUuid), ("name", Json.str "Acme")]))).out =
      .resp ⟨201, create_company_payload sampleUuid (Json.str "Acme") 5 5 0⟩ ∧
    (gen_hex24 0).length = 24 := by
  have h := create_company_created_response "/companies" "T" 5 5 0 ⟨[], []⟩ []
    [("company_id", Json.str sampleUuid), ("name", Json.str "Acme")] sampleUuid
    (Json.str "Acme") rfl rfl rfl rfl (by decide) rfl rfl rfl
  exact ⟨h.1, h.2.2.2.2.2.2.1⟩

/-- Helper: `find?` on a list with no matching row, extended by a
matching row, returns exactly that row. -/
theorem find?_append_fresh (l : List CompanyRow) (s : String) (row : CompanyRow)
    (h : l.countP (fun c => c.company_id == s) = 0)
    (hr : (row.company_id == s) = true) :
    (l ++ [row]).find? (fun c => c.company_id == s) = some row := by
  have h1 : l.find? (fun c => c.company_id == s) = none := by
    rw [List.find?_eq_none]
    intro x hx
    have hx0 := List.countP_eq_zero.mp h x hx
    simpa using hx0
  rw [List.find?_append, h1]
  simp [List.find?, hr]

/-- C5: round-trip — after a successful POST /companies with
company_id C and name N starting from a table without C, a GET
/companies/C (with working connection and query) returns HTTP 200
with payload companyId C, name N. -/
theorem create_company_get_roundtrip (path ts path2 ts2 : String)
    (e1 e2 : Int) (g : Nat) (db : DB) (ef ef2 : List (Option String))
    (fields : List (String × Json)) (s : String) (nm : Json)
    (hcid : dictGet fields "company_id" = Json.str s)
    (hst : (Json.str s).truthy = true)
    (hnm : dictGet fields "name" = nm)
    (hnmt : nm.truthy = true)
    (huuid : (uuid_UUID_hex s).isSome = true)
    (hq0 : ef.getD 0 none = none)
    (hq1 : ef.getD 1 none = none)
    (hfresh : db.companies.countP (fun c => c.company_id == s) = 0)
    (hq2 : ef2.getD 0 none = none) :
    (get_company_by_id s path2 ts2
        (create_company path ts e1 e2 g db true ef none (some (.obj fields))).db
        true ef2).out =
      .resp (format_response 200 false path2 ts2
        (some (.obj [("companyId", .str s), ("name", nm)])) none) := by
  rw [create_company_success_run path ts e1 e2 g db ef fields s nm
    hcid hst hnm hnmt huuid hq0 hq1 hfresh]
  have hq2' : ef2[0]?.getD none = none := by
    rw [List.getD_eq_getElem?_getD] at hq2; exact hq2
  have hfind := find?_append_fresh db.companies s ⟨s, nm⟩ hfresh (by simp)
  simp [get_company_by_id, hq2', hfind, company_payload]

/-- Witness for C5: create `sampleUuid` with name "Acme" in an empty
table, then fetch it back with matching name. -/
theorem create_company_get_roundtrip_witness :
    (get_company_by_id sampleUuid "/companies/s" "T2"
        (create_company "/companies" "T" 0 0 0 ⟨[], []⟩ true [] none
          (some (.obj [("company_id", Json.str sampleUuid), ("name", Json.str "Acme")]))).db
        true []).out =
      .resp (format_response 200 false "/companies/s" "T2"
        (some (.obj [("companyId", .str sampleUuid), ("name", Json.str "Acme")])) none) :=
  create_company_get_roundtrip "/companies" "T" "/companies/s" "T2" 0 0 0 ⟨[], []⟩ [] []
    [("company_id", Json.str sampleUuid), ("name", Json.str "Acme")] sampleUuid
    (Json.str "Acme") rfl rfl rfl rfl (by decide) rfl rfl rfl rfl

/-- Counterexample to C6 as stated: the handler reads the clock twice
(app.py lines 213 and 214); in a successful run in which the second
read happens one second after the first, the 201 response has
created_at 10 but updated_at 11 — the two fields are not equal and are
not set once. -/
theorem create_company_timestamps_unequal :
    outStatus (create_company "/companies" "T" 10 11 0 ⟨[], []⟩ true [] none
        (some (.obj [("company_id", Json.str sampleUuid), ("name", Json.str "n")]))).out = some 201 ∧
    outBodyGet (create_company "/companies" "T" 10 11 0 ⟨[], []⟩ true [] none
        (some (.obj [("company_id", Json.str sampleUuid), ("name", Json.str "n")]))).out
        "created_at" = some (.num 10) ∧
    outBodyGet (create_company "/companies" "T" 10 11 0 ⟨[], []⟩ true [] none
        (some (.obj [("company_id", Json.str sampleUuid), ("name", Json.str "n")]))).out
        "updated_at" = some (.num 11) ∧
    outBodyGet (create_company "/companies" "T" 10 11 0 ⟨[], []⟩ true [] none
        (some (.obj [("company_id", Json.str sampleUuid), ("name", Json.str "n")]))).out
        "created_at" ≠
      outBodyGet (create_company "/companies" "T" 10 11 0 ⟨[], []⟩ true [] none
        (some (.obj [("company_id", Json.str sampleUuid), ("name", Json.str "n")]))).out
        "updated_at" := by
  refine ⟨rfl, rfl, rfl, ?_⟩
  intro h
  rw [show outBodyGet (create_company "/companies" "T" 10 11 0 ⟨[], []⟩ true [] none
        (some (.obj [("company_id", Json.str sampleUuid), ("name", Json.str "n")]))).out
        "created_at" = some (Json.num 10) from rfl,
      show outBodyGet (create_company "/companies" "T" 10 11 0 ⟨[], []⟩ true [] none
        (some (.obj [("company_id", Json.str sampleUuid), ("name", Json.str "n")]))).out
        "updated_at" = some (Json.num 11) from rfl] at h
  exact absurd h (by simp)

/-- C6 (amended): in a successful create-company response, created_at
holds the first clock reading and updated_at the second (each from its
own int(datetime.now().timestamp()) call); they are equal whenever the
two readings fall in the same second, but they are not set once. -/
theorem create_company_timestamps (path ts : String) (e1 e2 : Int)
    (g : Nat) (db : DB) (ef : List (Option String))
    (fields : List (String × Json)) (s : String) (nm : Json)
    (hcid : dictGet fields "company_id" = Json.str s)
    (hst : (Json.str s).truthy = true)
    (hnm : dictGet fields "name" = nm)
    (hnmt : nm.truthy = true)
    (huuid : (uuid_UUID_hex s).isSome = true)
    (hq0 : ef.getD 0 none = none)
    (hq1 : ef.getD 1 none = none)
    (hfresh : db.companies.countP (fun c => c.company_id == s) = 0) :
    outBodyGet (create_company path ts e1 e2 g db true ef none (some (.obj fields))).out
        "created_at" = some (.num e1) ∧
    outBodyGet (create_company path ts e1 e2 g db true ef none (some (.obj fields))).out
        "updated_at" = some (.num e2) ∧
    (e1 = e2 →
      outBodyGet (create_company path ts e1 e2 g db true ef none (some (.obj fields))).out
          "created_at" =
        outBodyGet (create_company path ts e1 e2 g db true ef none (some (.obj fields))).out
          "updated_at") := by
  rw [create_company_success_run path ts e1 e2 g db ef fields s nm
    hcid hst hnm hnmt huuid hq0 hq1 hfresh]
  refine ⟨rfl, rfl, fun h => ?_⟩
  subst h
  rfl

/-- Witness for C6 (amended): with both clock readings equal to 7 the
successful response carries created_at = updated_at = 7. -/
theorem create_company_timestamps_witness :
    outBodyGet (create_company "/companies" "T" 7 7 0 ⟨[], []⟩ true [] none
        (some (.obj [("company_id", Json.str sampleUuid), ("name", Json.str "n")]))).out
        "created_at" = some (.num 7) ∧
    outBodyGet (create_company "/companies" "T" 7 7 0 ⟨[], []⟩ true [] none
        (some (.obj [("company_id", Json.str sampleUuid), ("name", Json.str "n")]))).out
        "created_at" =
      outBodyGet (create_company "/companies" "T" 7 7 0 ⟨[], []⟩ true [] none
        (some (.obj [("company_id", Json.str sampleUuid), ("name", Json.str "n")]))).out
        "updated_at" := by
  have h := create_company_timestamps "/companies" "T" 7 7 0 ⟨[], []⟩ []
    [("company_id", Json.str sampleUuid), ("name", Json.str "n")] sampleUuid
    (Json.str "n") rfl rfl rfl rfl (by decide) rfl rfl rfl
  exact ⟨h.1, h.2.2 rfl⟩
